import Mathlib

/-!
Verification of the CommandFlow voice-command pipeline.

This file shallowly embeds the audio segmentation and command-dispatch logic of
`cudaToText.py`, `voiceToText_whisper.py` and `window_detection.py`:

* Python strings are Lean `String`s; `str.lower` / `str.strip` / `str.split` /
  the substring operator `in` are modelled by executable functions on the
  underlying character lists (`pyLower`, `pyStrip`, `pyWords`, `strContains`).
* Audio blocks are lists of `Int` samples; numpy's `int16` arithmetic is
  modelled with an explicit two's-complement wrap (`int16_wrap`), which matters
  because `np.abs` on an `int16` array maps -32768 to -32768.
* The `AudioProcessor` loop bodies of both scripts become pure step functions
  `cudaStep` / `whisperStep` on an explicit state (`ProcState`), and the
  worker `save_and_process_audio` of each script becomes a function producing
  the list of externally visible effects (`WorkerEffect`), parameterised by the
  transcription segments returned by the external Whisper model.
-/

/-! ## Python string primitives -/

/-- Prefix test on character lists: `startsWithL s pat` holds when `pat` is an
initial segment of `s`. -/
def startsWithL : List Char → List Char → Bool
  | _, [] => true
  | [], _ :: _ => false
  | a :: s, b :: t => (a == b) && startsWithL s t

/-- Substring test on character lists, modelling Python's `pat in s`. -/
def containsL : List Char → List Char → Bool
  | [], pat => pat.isEmpty
  | a :: s, pat => startsWithL (a :: s) pat || containsL s pat

/-- Python's substring operator `pat in s` on strings. -/
def strContains (s pat : String) : Bool := containsL s.data pat.data

/-- ASCII lower-casing of one character, as `str.lower` acts on the ASCII
characters that occur in the command phrases. -/
def pyCharLower (c : Char) : Char :=
  if 65 ≤ c.toNat ∧ c.toNat ≤ 90 then Char.ofNat (c.toNat + 32) else c

/-- Python's `str.lower` (ASCII fragment). -/
def pyLower (s : String) : String := ⟨s.data.map pyCharLower⟩

/-- Python's `str.strip` with no argument: remove leading and trailing
whitespace. -/
def pyStrip (s : String) : String :=
  ⟨((s.data.dropWhile Char.isWhitespace).reverse.dropWhile Char.isWhitespace).reverse⟩

/-- The `command.lower().strip()` normalisation both scripts apply to
recognized text before matching. -/
def pyNormalize (s : String) : String := pyStrip (pyLower s)

/-- Python's `str.split()` with no argument: split on whitespace runs and drop
empty words. -/
def pyWords (s : String) : List String :=
  ((s.data.splitOnP Char.isWhitespace).filter (fun w => !w.isEmpty)).map (fun l => ⟨l⟩)

/-! ## int16 arithmetic and the energy detector

Audio arrives as numpy `int16` arrays (the input streams are opened with
`dtype=np.int16`). `np.abs` keeps the dtype, so the absolute value is computed
modulo 2^16 in two's complement: `np.abs` maps -32768 to -32768. -/

/-- An audio block: the flattened list of `int16` samples of one chunk. -/
abbrev Block := List Int

/-- Wrap an integer into the `int16` range `[-32768, 32767]`
(two's complement). -/
def int16_wrap (n : Int) : Int := (n + 32768) % 65536 - 32768

/-- `np.abs` on one `int16` sample: ordinary absolute value followed by the
two's-complement wrap (so `int16Abs (-32768) = -32768`). -/
def int16Abs (x : Int) : Int := int16_wrap (if x < 0 then -x else x)

/-- `SILENCE_THRESHOLD = 500`, the energy threshold of both scripts. -/
def SILENCE_THRESHOLD : Int := 500

/-- `MAX_SILENCE_CHUNKS = 8`, the silent-chunk count that ends an utterance in
both scripts. -/
def MAX_SILENCE_CHUNKS : Nat := 8

/-- `np.max(np.abs(current_audio))`: the maximum of the `int16` absolute values
of the samples (folded from the smallest `int16`, which is below every sample's
`int16Abs` for the nonempty fixed-size blocks the stream delivers). -/
def blockEnergy (block : Block) : Int :=
  (block.map int16Abs).foldl max (-32768)

/-- `is_speech` of `voiceToText_whisper.py` (and the inlined
`energy > self.energy_threshold` test of `cudaToText.py`): a block is speech
when its energy strictly exceeds the threshold. -/
def is_speech (block : Block) : Bool := blockEnergy block > SILENCE_THRESHOLD

/-- The spec's words for the energy of a block: "the maximum absolute sample
value of the block" with the mathematical absolute value (no int16 wrap).
Stated separately so it can be compared with `blockEnergy`. -/
def specPeakAmplitude (block : Block) : Int :=
  (block.map (fun x => |x|)).foldl max 0

/-! ## preprocess_audio

`preprocess_audio` converts the samples to float64, scales by 2/32768, clips to
[-1, 1], scales by 32767 and casts back to int16. Every intermediate double is
exact for int16 inputs, and the final cast truncates toward zero, so the whole
map is the following exact integer function. -/

/-- One sample of `preprocess_audio`: clamp `x` to `[-16384, 16384]` (the
effect of the amplify-then-clip step) and rescale by `32767/16384`, truncating
toward zero as the `astype(np.int16)` cast does. -/
def preprocess_sample (x : Int) : Int :=
  Int.tdiv ((max (-16384) (min 16384 x)) * 32767) 16384

/-- `preprocess_audio` applied to a whole utterance. -/
def preprocess_audio (audio : List Int) : List Int := audio.map preprocess_sample

/-! ## The command interpreter (`process_voice_command`)

Both scripts contain the identical function. It is modelled as a pure function
from the screen width (the value `pyautogui.size()` would report) and the
recognized text to the returned Bool together with the list of OS
input-simulation calls issued, in order. GUI label updates are not OS input
simulation and are not modelled. -/

/-- An OS input-simulation call made through pyautogui. -/
inductive OSAction where
  | moveTo (x y : Int)
  | hotkey_alt_f4
deriving DecidableEq

/-- `move_mouse_commands = ["move mouse", "move the mouse"]`. -/
def move_mouse_commands : List String := ["move mouse", "move the mouse"]

/-- `exit_commands = ["exit window", "close window"]`. -/
def exit_commands : List String := ["exit window", "close window"]

/-- `process_voice_command` of both scripts, returning the Bool result and the
issued OS input-simulation calls (assuming the pyautogui calls raise no
exception). -/
def process_voice_command (screen_width : Int) (command : String) : Bool × List OSAction :=
  let command := pyNormalize command
  if move_mouse_commands.any (fun cmd => strContains command cmd) then
    if strContains command "top right" then
      (true, [OSAction.moveTo (screen_width - 1) 0])
    else
      (true, [OSAction.moveTo 200 200])
  else if exit_commands.any (fun cmd => strContains command cmd) then
    (true, [OSAction.hotkey_alt_f4])
  else
    (false, [])

/-- The claim's phrase set: the normalised text contains one of the four fixed
substrings. -/
def matchesKnownCommandPhrase (t : String) : Bool :=
  strContains t "move mouse" || strContains t "move the mouse" ||
    strContains t "exit window" || strContains t "close window"

/-! ## get_context_for_speech_command (`window_detection.py`)

Only the fields the claims are about are modelled: `likely_false_positive` and
`command_confidence`. The fields copied from the OS window snapshot
(`active_window`, `window_count`, `has_video_app_open`, app-launch metadata)
depend on the live system and play no role in which branch is taken or in
these two fields; dictionaries without the `likely_false_positive` key read as
a false flag via `.get`. -/

/-- The projection of the context dictionary returned by
`get_context_for_speech_command` onto the fields used by the claims. -/
structure SpeechContext where
  likely_false_positive : Bool
  command_confidence : String
deriving DecidableEq

/-- `get_context_for_speech_command`: flags the common "thanks for watching"
false recognition (confidence "low"), recognises open/launch/start app
commands (confidence "high"), and otherwise returns general context
(confidence "medium"). -/
def get_context_for_speech_command (recognized_text : String) : SpeechContext :=
  let text_lower := pyNormalize recognized_text
  if strContains text_lower "thanks for watching" && !(strContains text_lower "youtube") then
    ⟨true, "low"⟩
  else if (strContains text_lower "open" || strContains text_lower "launch" ||
      strContains text_lower "start") && (pyWords text_lower).length ≥ 2 then
    ⟨false, "high"⟩
  else
    ⟨false, "medium"⟩

/-! ## The transcription workers (`save_and_process_audio`)

Each worker is modelled as a function from the utterance audio and the segment
texts the external Whisper model returns to the ordered list of its externally
visible effects. The joined text is `" ".join(segment texts)` and command
processing runs on the unnormalised joined text. -/

/-- An externally visible effect of a transcription worker. -/
inductive WorkerEffect where
  | writeTempWav (samples : List Int)
  | transcribe
  | saveRecording
  | processCommand (text : String)
  | deleteTemp
deriving DecidableEq

/-- `save_and_process_audio` of `cudaToText.py`: write the preprocessed audio
to a temporary WAV file, transcribe it, and when the joined text is nonempty
after stripping and the window-context probe does not flag it as a likely
false positive, process it as a command; finally delete the temporary file. -/
def cuda_save_and_process_audio (audio : List Int) (segments : List String) :
    List WorkerEffect :=
  let text := String.intercalate " " segments
  [WorkerEffect.writeTempWav (preprocess_audio audio), WorkerEffect.transcribe] ++
    (if pyStrip text ≠ "" then
      (if (get_context_for_speech_command text).likely_false_positive then []
       else [WorkerEffect.processCommand text])
     else []) ++
    [WorkerEffect.deleteTemp]

/-- `save_and_process_audio` of `voiceToText_whisper.py`: write the
preprocessed audio to a temporary WAV file, transcribe it, and when the joined
text is nonempty after stripping, save the recording and process the text as a
command; finally delete the temporary file. -/
def whisper_save_and_process_audio (audio : List Int) (segments : List String) :
    List WorkerEffect :=
  let text := String.intercalate " " segments
  [WorkerEffect.writeTempWav (preprocess_audio audio), WorkerEffect.transcribe] ++
    (if pyStrip text ≠ "" then
      [WorkerEffect.saveRecording, WorkerEffect.processCommand text]
     else []) ++
    [WorkerEffect.deleteTemp]

/-! ## The voice-activity state machine

Both `AudioProcessor`s keep an audio buffer, a recording flag and a silence
counter. Each consumed chunk drives one step; a dispatch hands
`np.concatenate(self.audio_buffer)` to the worker. -/

/-- The mutable state of an `AudioProcessor`. -/
structure ProcState where
  audio_buffer : List Block
  recording_active : Bool
  silence_count : Nat
deriving DecidableEq

/-- The state built in `AudioProcessor.__init__`: empty buffer, not recording,
zero silence count. -/
def initState : ProcState := ⟨[], false, 0⟩

/-- One iteration of the `while` loop body of
`cudaToText.AudioProcessor.process_audio` on one dequeued chunk. Returns the
new state and the dispatched utterance, if any. On a speech chunk the state
starts (or keeps) recording and appends the chunk; note the silence counter is
reset only on the onset transition. On a silent chunk while recording the
chunk is appended, the counter is incremented, and once it reaches
`MAX_SILENCE_CHUNKS` the concatenated buffer is dispatched and the state is
reset. -/
def cudaStep (s : ProcState) (chunk : Block) : ProcState × Option (List Int) :=
  let energy := blockEnergy chunk
  if energy > SILENCE_THRESHOLD then
    if s.recording_active then
      (⟨s.audio_buffer ++ [chunk], true, s.silence_count⟩, none)
    else
      (⟨s.audio_buffer ++ [chunk], true, 0⟩, none)
  else if s.recording_active then
    let buf := s.audio_buffer ++ [chunk]
    let sc := s.silence_count + 1
    if sc ≥ MAX_SILENCE_CHUNKS then
      (⟨[], false, 0⟩, some buf.flatten)
    else
      (⟨buf, true, sc⟩, none)
  else
    (s, none)

/-- One invocation of the `audio_callback` of
`voiceToText_whisper.AudioProcessor.process_audio` on one chunk (with
listening on and a clean stream status). On a speech chunk, the buffer is
appended and the counter reset only when recording was not yet active; a
speech chunk while recording changes nothing. On a silent chunk while
recording the counter is incremented and the chunk appended; at
`MAX_SILENCE_CHUNKS` the concatenated buffer is dispatched if nonempty and the
state is reset. -/
def whisperStep (s : ProcState) (chunk : Block) : ProcState × Option (List Int) :=
  let current_energy := blockEnergy chunk
  if current_energy > SILENCE_THRESHOLD then
    if s.recording_active then
      (s, none)
    else
      (⟨s.audio_buffer ++ [chunk], true, 0⟩, none)
  else if s.recording_active then
    let sc := s.silence_count + 1
    let buf := s.audio_buffer ++ [chunk]
    if sc ≥ MAX_SILENCE_CHUNKS then
      (⟨[], false, 0⟩, if buf.length > 0 then some buf.flatten else none)
    else
      (⟨buf, true, sc⟩, none)
  else
    (s, none)

/-- Run a step function over a list of chunks, collecting the dispatched
utterances in order. -/
def runProc (step : ProcState → Block → ProcState × Option (List Int)) :
    ProcState → List Block → ProcState × List (List Int)
  | s, [] => (s, [])
  | s, c :: cs =>
    let p := step s c
    let r := runProc step p.1 cs
    (r.1, p.2.toList ++ r.2)

/-- Length of the longest run of consecutive silent blocks in a chunk
sequence. -/
def maxConsecSilentAux : List Block → Nat → Nat → Nat
  | [], cur, best => max cur best
  | b :: bs, cur, best =>
    if is_speech b then maxConsecSilentAux bs 0 (max cur best)
    else maxConsecSilentAux bs (cur + 1) best

/-- Longest run of consecutive silent blocks in a chunk sequence. -/
def maxConsecSilent (bs : List Block) : Nat := maxConsecSilentAux bs 0 0

/-- The loop invariant of both `AudioProcessor`s: when not recording the
buffer is empty and the counter is zero, and the counter stays strictly below
`MAX_SILENCE_CHUNKS`. -/
def ProcInv (s : ProcState) : Prop :=
  (s.recording_active = false → s.audio_buffer = [] ∧ s.silence_count = 0) ∧
    s.silence_count < MAX_SILENCE_CHUNKS

instance (s : ProcState) : Decidable (ProcInv s) := by
  unfold ProcInv; infer_instance

/-! ## Transcription dispatch mechanisms

How each script hands a completed utterance to its transcription worker, read
off the dispatch sites: `cudaToText.py` submits to the module-level
`ThreadPoolExecutor(max_workers=4)`; `voiceToText_whisper.py` starts a fresh
`threading.Thread` per utterance. -/

/-- The mechanism a script uses to run `save_and_process_audio`. -/
inductive DispatchMechanism where
  | threadPoolExecutor (max_workers : Nat)
  | newThreadPerUtterance
deriving DecidableEq

/-- `executor.submit(save_and_process_audio, complete_audio)` with
`executor = ThreadPoolExecutor(max_workers=4)` in `cudaToText.py`. -/
def cudaDispatchMechanism : DispatchMechanism := DispatchMechanism.threadPoolExecutor 4

/-- `threading.Thread(target=save_and_process_audio, args=(complete_audio,)).start()`
in `voiceToText_whisper.py`. -/
def whisperDispatchMechanism : DispatchMechanism := DispatchMechanism.newThreadPerUtterance

/-- The bound on concurrently running transcription workers a mechanism
enforces: a pool bounds them by `max_workers`; a fresh thread per utterance
enforces no bound. -/
def workerBound : DispatchMechanism → Option Nat
  | DispatchMechanism.threadPoolExecutor n => some n
  | DispatchMechanism.newThreadPerUtterance => none

/-! ## Helper lemmas -/

theorem foldl_max_gt_iff (c : Int) :
    ∀ (l : List Int) (a : Int), l.foldl max a > c ↔ a > c ∨ ∃ x ∈ l, x > c := by
  intro l
  induction l with
  | nil => intro a; simp
  | cons y ys ih =>
      intro a
      rw [List.foldl_cons, ih (max a y)]
      simp only [lt_max_iff, List.mem_cons]
      constructor
      · rintro ((h | h) | ⟨x, hx, hxc⟩)
        · exact Or.inl h
        · exact Or.inr ⟨y, Or.inl rfl, h⟩
        · exact Or.inr ⟨x, Or.inr hx, hxc⟩
      · rintro (h | ⟨x, (rfl | hx), hxc⟩)
        · exact Or.inl (Or.inl h)
        · exact Or.inl (Or.inr hxc)
        · exact Or.inr ⟨x, hx, hxc⟩

theorem int16Abs_eq_abs (x : Int) (h1 : -32768 < x) (h2 : x < 32768) :
    int16Abs x = |x| := by
  unfold int16Abs int16_wrap
  rcases le_or_lt 0 x with hx | hx
  · rw [if_neg (not_lt.mpr hx), abs_of_nonneg hx, Int.emod_eq_of_lt (by omega) (by omega)]
    omega
  · rw [if_pos hx, abs_of_neg hx, Int.emod_eq_of_lt (by omega) (by omega)]
    omega

/-! ## Claims -/

/-- C1: the silence counter of both `AudioProcessor`s does not count
consecutive silent chunks: a speech chunk while recording is active leaves the
counter unchanged, so on the chunk sequence speech, 7 silents, speech, silent
(whose longest run of consecutive silent blocks is 7 < MAX_SILENCE_CHUNKS)
both loops nevertheless dispatch an utterance, counting the 8 silent chunks
cumulatively. This refutes dispatch being gated on a trailing run of 8
consecutive silent blocks with no speech block among them. -/
theorem c1_silence_counter_is_cumulative_not_consecutive :
    (cudaStep ⟨[[1000]], true, 7⟩ [1000]).1.silence_count = 7 ∧
    (whisperStep ⟨[[1000]], true, 7⟩ [1000]).1.silence_count = 7 ∧
    maxConsecSilent ([[1000]] ++ List.replicate 7 [0] ++ [[1000], [0]]) = 7 ∧
    (runProc cudaStep initState
      ([[1000]] ++ List.replicate 7 [0] ++ [[1000], [0]])).2.length = 1 ∧
    (runProc whisperStep initState
      ([[1000]] ++ List.replicate 7 [0] ++ [[1000], [0]])).2.length = 1 := by
  decide

/-- C2: in `voiceToText_whisper.py` a speech chunk arriving while recording is
already active is dropped (the append sits inside the `if not
self.is_recording` branch), so on the sequence speech [1000], speech [600],
8 silents the dispatched utterance misses the second speech block, and is not
the concatenation of all blocks consumed from onset to dispatch; `cudaToText.py`
dispatches the full concatenation on the same input. -/
theorem c2_whisper_drops_midrecording_speech_blocks :
    (runProc cudaStep initState ([[1000], [600]] ++ List.replicate 8 [0])).2 =
      [(([[1000], [600]] ++ List.replicate 8 [0]) : List Block).flatten] ∧
    (runProc whisperStep initState ([[1000], [600]] ++ List.replicate 8 [0])).2 =
      [[1000, 0, 0, 0, 0, 0, 0, 0, 0]] ∧
    (runProc whisperStep initState ([[1000], [600]] ++ List.replicate 8 [0])).2 ≠
      [(([[1000], [600]] ++ List.replicate 8 [0]) : List Block).flatten] := by
  decide

/-- C4 counterexample: `voiceToText_whisper.py` does not submit utterances to
any bounded worker pool: it starts a fresh thread per utterance, so no bound
(in particular not 4) on concurrently running transcription workers is
enforced. -/
theorem c4_whisper_has_no_bounded_worker_pool :
    ¬ ∃ n, workerBound whisperDispatchMechanism = some n ∧ n ≤ 4 := by
  rintro ⟨n, h, -⟩
  simp [workerBound, whisperDispatchMechanism] at h

/-- C4 amended: `cudaToText.py` submits each completed utterance to a
`ThreadPoolExecutor` bounded at 4 workers, while `voiceToText_whisper.py`
starts a new unbounded thread per utterance and enforces no concurrency
bound. -/
theorem c4_cuda_pool_bounded_whisper_unbounded :
    workerBound cudaDispatchMechanism = some 4 ∧
    workerBound whisperDispatchMechanism = none :=
  ⟨rfl, rfl⟩

/-- C5 counterexample: on the block whose only sample is -32768 the maximum
absolute sample value is 32768, which strictly exceeds the threshold 500, yet
the detector classifies the block as silence, because `np.abs` on `int16`
wraps -32768 to -32768. -/
theorem c5_int16_abs_wrap_counterexample :
    is_speech [-32768] = false ∧
    specPeakAmplitude [-32768] = 32768 ∧
    specPeakAmplitude [-32768] > SILENCE_THRESHOLD := by
  decide

/-- C5 amended: for blocks whose samples all lie strictly between -32768 and
32768 (every `int16` value except -32768), the detector classifies a block as
speech exactly when its maximum absolute sample value strictly exceeds
`SILENCE_THRESHOLD = 500`, and a block whose peak equals the threshold is
classified as silence. -/
theorem c5_threshold_classification (block : Block)
    (hrange : ∀ x ∈ block, -32768 < x ∧ x < 32768) :
    (is_speech block = true ↔ specPeakAmplitude block > SILENCE_THRESHOLD) ∧
    (specPeakAmplitude block = SILENCE_THRESHOLD → is_speech block = false) := by
  have hmap : block.map int16Abs = block.map (fun x => |x|) :=
    List.map_congr_left fun x hx => int16Abs_eq_abs x (hrange x hx).1 (hrange x hx).2
  have henergy : (blockEnergy block > SILENCE_THRESHOLD) ↔
      (specPeakAmplitude block > SILENCE_THRESHOLD) := by
    unfold blockEnergy specPeakAmplitude SILENCE_THRESHOLD
    rw [hmap, foldl_max_gt_iff, foldl_max_gt_iff]
    constructor
    · rintro (h | h)
      · omega
      · exact Or.inr h
    · rintro (h | h)
      · omega
      · exact Or.inr h
  constructor
  · rw [is_speech, decide_eq_true_iff]
    exact henergy
  · intro heq
    have : ¬ (specPeakAmplitude block > SILENCE_THRESHOLD) := by omega
    rw [is_speech, decide_eq_false_iff_not]
    exact fun h => this (henergy.mp h)

theorem c5_witness :
    (∀ x ∈ ([600] : Block), -32768 < x ∧ x < 32768) ∧ is_speech [600] = true :=
  ⟨by decide, (c5_threshold_classification [600] (by decide)).1.mpr (by decide)⟩

/-- C3: `process_voice_command` lowercases and strips the text and returns
true exactly when the result contains one of "move mouse", "move the mouse",
"exit window" or "close window"; on any other text it returns false and issues
no OS input-simulation call. -/
theorem c3_recognized_phrases (screen_width : Int) (command : String) :
    ((process_voice_command screen_width command).1 =
      matchesKnownCommandPhrase (pyNormalize command)) ∧
    (matchesKnownCommandPhrase (pyNormalize command) = false →
      (process_voice_command screen_width command).2 = []) := by
  unfold process_voice_command matchesKnownCommandPhrase move_mouse_commands exit_commands
  simp only [List.any_cons, List.any_nil, Bool.or_false]
  by_cases h1 : strContains (pyNormalize command) "move mouse" <;>
    by_cases h2 : strContains (pyNormalize command) "move the mouse" <;>
      by_cases h3 : strContains (pyNormalize command) "exit window" <;>
        by_cases h4 : strContains (pyNormalize command) "close window" <;>
          simp [h1, h2, h3, h4] <;> split <;> simp

theorem c3_witness :
    matchesKnownCommandPhrase (pyNormalize "hello there") = false ∧
    (process_voice_command 1920 "hello there").2 = [] :=
  ⟨by decide, (c3_recognized_phrases 1920 "hello there").2 (by decide)⟩

/-- C9: `get_context_for_speech_command` sets `likely_false_positive` exactly
when the lowercased stripped text contains "thanks for watching" and does not
contain "youtube", and every flagged result carries command confidence
"low". -/
theorem c9_thanks_for_watching_flag (recognized_text : String) :
    ((get_context_for_speech_command recognized_text).likely_false_positive =
      (strContains (pyNormalize recognized_text) "thanks for watching" &&
        !(strContains (pyNormalize recognized_text) "youtube"))) ∧
    ((get_context_for_speech_command recognized_text).likely_false_positive = true →
      (get_context_for_speech_command recognized_text).command_confidence = "low") := by
  unfold get_context_for_speech_command
  by_cases h : strContains (pyNormalize recognized_text) "thanks for watching" &&
      !(strContains (pyNormalize recognized_text) "youtube")
  · simp [h]
  · simp [h]
    split <;> simp

theorem c9_witness :
    (get_context_for_speech_command "Thanks for watching!").likely_false_positive = true ∧
    (get_context_for_speech_command "Thanks for watching!").command_confidence = "low" :=
  ⟨by decide, (c9_thanks_for_watching_flag "Thanks for watching!").2 (by decide)⟩

/-- C10: the move-mouse check runs before the exit check, so any command
matching a move-mouse phrase (even one also containing an exit phrase) returns
true, never issues Alt+F4, and moves the mouse: to the top-right screen corner
when "top right" occurs as a substring, else to the default position
(200, 200). -/
theorem c10_move_mouse_precedence (screen_width : Int) (command : String)
    (h : move_mouse_commands.any
      (fun cmd => strContains (pyNormalize command) cmd) = true) :
    ((process_voice_command screen_width command).1 = true) ∧
    (OSAction.hotkey_alt_f4 ∉ (process_voice_command screen_width command).2) ∧
    (strContains (pyNormalize command) "top right" = true →
      (process_voice_command screen_width command).2 =
        [OSAction.moveTo (screen_width - 1) 0]) ∧
    (strContains (pyNormalize command) "top right" = false →
      (process_voice_command screen_width command).2 = [OSAction.moveTo 200 200]) := by
  unfold process_voice_command
  rw [if_pos h]
  by_cases htr : strContains (pyNormalize command) "top right"
  · simp [htr]
  · simp [htr]

theorem c10_witness :
    move_mouse_commands.any
      (fun cmd => strContains (pyNormalize "move mouse and close window") cmd) = true ∧
    OSAction.hotkey_alt_f4 ∉ (process_voice_command 1920 "move mouse and close window").2 ∧
    (process_voice_command 1920 "move mouse and close window").2 =
      [OSAction.moveTo 200 200] :=
  ⟨by decide,
    (c10_move_mouse_precedence 1920 "move mouse and close window" (by decide)).2.1,
    (c10_move_mouse_precedence 1920 "move mouse and close window" (by decide)).2.2.2
      (by decide)⟩

/-- C6: in the `cudaToText.py` transcription worker, whenever the
window-context probe flags the recognized text as a likely false positive, no
command processing happens: no `processCommand` effect occurs in the worker's
effect list. -/
theorem c6_false_positive_suppresses_command (audio : List Int) (segments : List String)
    (h : (get_context_for_speech_command
      (String.intercalate " " segments)).likely_false_positive = true) :
    ∀ t, WorkerEffect.processCommand t ∉ cuda_save_and_process_audio audio segments := by
  intro t
  simp [cuda_save_and_process_audio, h]

theorem c6_witness :
    (get_context_for_speech_command
      (String.intercalate " " ["Thanks for watching!"])).likely_false_positive = true ∧
    WorkerEffect.processCommand "Thanks for watching!" ∉
      cuda_save_and_process_audio [0] ["Thanks for watching!"] :=
  ⟨by decide,
    c6_false_positive_suppresses_command [0] ["Thanks for watching!"] (by decide)
      "Thanks for watching!"⟩

/-- C7: both workers first write the preprocessed audio to a temporary WAV
file and invoke the transcription model; the whisper worker forwards the joined
text to command processing exactly when it is nonempty after stripping, the
cuda worker exactly when it is additionally not flagged as a false positive;
when the stripped text is empty neither worker processes any command. -/
theorem c7_worker_forwards_nonempty_text (audio : List Int) (segments : List String) :
    ((cuda_save_and_process_audio audio segments).take 2 =
      [WorkerEffect.writeTempWav (preprocess_audio audio), WorkerEffect.transcribe]) ∧
    ((whisper_save_and_process_audio audio segments).take 2 =
      [WorkerEffect.writeTempWav (preprocess_audio audio), WorkerEffect.transcribe]) ∧
    (WorkerEffect.processCommand (String.intercalate " " segments) ∈
        whisper_save_and_process_audio audio segments ↔
      pyStrip (String.intercalate " " segments) ≠ "") ∧
    (WorkerEffect.processCommand (String.intercalate " " segments) ∈
        cuda_save_and_process_audio audio segments ↔
      (pyStrip (String.intercalate " " segments) ≠ "" ∧
        (get_context_for_speech_command
          (String.intercalate " " segments)).likely_false_positive = false)) ∧
    (pyStrip (String.intercalate " " segments) = "" →
      ∀ t, WorkerEffect.processCommand t ∉ cuda_save_and_process_audio audio segments ∧
        WorkerEffect.processCommand t ∉ whisper_save_and_process_audio audio segments) := by
  by_cases hempty : pyStrip (String.intercalate " " segments) = "" <;>
    by_cases hflag : (get_context_for_speech_command
        (String.intercalate " " segments)).likely_false_positive <;>
      simp [cuda_save_and_process_audio, whisper_save_and_process_audio, hempty, hflag]

theorem c7_witness :
    pyStrip (String.intercalate " " ["move mouse"]) ≠ "" ∧
    WorkerEffect.processCommand (String.intercalate " " ["move mouse"]) ∈
      whisper_save_and_process_audio [100] ["move mouse"] :=
  ⟨by decide,
    (c7_worker_forwards_nonempty_text [100] ["move mouse"]).2.2.1.mpr (by decide)⟩

/-- C8: the state invariant of both `AudioProcessor`s — when not recording the
buffer is empty and the counter zero, and the counter is strictly below
`MAX_SILENCE_CHUNKS` — holds initially and is preserved by every step of
either loop. -/
theorem c8_processor_invariant (s : ProcState) (chunk : Block) (h : ProcInv s) :
    ProcInv initState ∧ ProcInv (cudaStep s chunk).1 ∧ ProcInv (whisperStep s chunk).1 := by
  obtain ⟨hrec, hsil⟩ := h
  refine ⟨by decide, ?_, ?_⟩
  · unfold cudaStep
    dsimp only
    split_ifs with h1 h2 h3 <;> simp_all [ProcInv, MAX_SILENCE_CHUNKS]
    omega
  · unfold whisperStep
    dsimp only
    split_ifs with h1 h2 h3 <;> simp_all [ProcInv, MAX_SILENCE_CHUNKS]
    omega

theorem c8_witness :
    ProcInv initState ∧ ProcInv (cudaStep ⟨[[1000]], true, 7⟩ [0]).1 :=
  ⟨(c8_processor_invariant initState [0] (by decide)).1,
    (c8_processor_invariant ⟨[[1000]], true, 7⟩ [0] (by decide)).2.1⟩
